import Mathlib

/-!
Verification of the e-commerce analytics dashboard (src/dashboard.py).

The dashboard is a single-pass pandas pipeline over an in-memory table.
We embed the table shallowly: a row of all_data.csv becomes the structure
Row below, with nullable columns as Option.  Timestamps are epoch seconds
(Int); the pandas accessor .dt.date becomes floor division by 86400
(epoch-day granularity), and Timedelta .dt.days is likewise floor division
of the signed difference by 86400, matching the pandas floor convention
for negative deltas.  Prices and review scores are rationals.

Pandas conventions mirrored by the model:
- groupby drops rows whose key is null, and a comparison of a null
  timestamp with a date is false (NaT comparison semantics), so such rows
  are excluded by the date filter;
- Series.sum of an empty selection is 0; Series.mean skips nulls and is
  NaN (modelled as none) when no non-null value remains;
- nunique counts distinct values, modelled via List.toFinset.card;
- a missing value produced by a left join is NaN (modelled as none), and
  fillna(0) replaces it by 0.
-/

/-- One row of the merged dataset (one order-item line). -/
structure Row where
  order_id : String
  order_status : String
  price : ℚ
  product_category_name_english : Option String
  review_score : Option ℚ
  order_purchase_timestamp : Option Int
  order_delivered_customer_date : Option Int
  order_estimated_delivery_date : Option Int
deriving DecidableEq, Repr

def secondsPerDay : Int := 86400

/-- The pandas accessor .dt.date, at epoch-day granularity. -/
def toDate (t : Int) : Int := Int.fdiv t secondsPerDay

/-- The pandas Timedelta accessor .dt.days (floors toward minus infinity). -/
def timedeltaDays (d : Int) : Int := Int.fdiv d secondsPerDay

/-- Date-range filter, dashboard.py lines 90 to 93: keep rows whose purchase
timestamp, stripped to its calendar date, lies in the inclusive range.
A null timestamp compares false on both bounds (pandas NaT semantics),
hence is dropped. -/
def mainDf (all : List Row) (startDate endDate : Int) : List Row :=
  all.filter (fun r =>
    match r.order_purchase_timestamp with
    | none => false
    | some t => decide (startDate ≤ toDate t) && decide (toDate t ≤ endDate))

/-- Rows with status delivered (the selection used for revenue). -/
def deliveredDf (df : List Row) : List Row :=
  df.filter (fun r => r.order_status == "delivered")

/-- Rows whose status is canceled or unavailable, dashboard.py line 133. -/
def cancelDf (df : List Row) : List Row :=
  df.filter (fun r => r.order_status == "canceled" || r.order_status == "unavailable")

/-- KPI total revenue, line 103: sum of price over delivered rows. -/
def totalRevenue (df : List Row) : ℚ :=
  ((deliveredDf df).map (·.price)).sum

/-- The pandas nunique over the order_id column: distinct order ids. -/
def nuniqueOrders (df : List Row) : ℕ :=
  (df.map (·.order_id)).toFinset.card

/-- Mean of a list of rationals; none models the NaN mean of an empty
selection. -/
def listMean (l : List ℚ) : Option ℚ :=
  if l = [] then none else some (l.sum / (l.length : ℚ))

/-- KPI average review score, line 111: mean skipping null scores. -/
def avgScore (df : List Row) : Option ℚ :=
  listMean (df.filterMap (·.review_score))

/-- Distinct non-null category labels, the groupby keys (groupby drops
null keys). -/
def catKeys (df : List Row) : List String :=
  (df.filterMap (·.product_category_name_english)).dedup

/-- The rows of one groupby bucket: category label equals c. -/
def rowsInCat (df : List Row) (c : String) : List Row :=
  df.filter (fun r => r.product_category_name_english == some c)

/-- Revenue of one category: sum of price over its delivered rows. -/
def revenueOfCat (df : List Row) (c : String) : ℚ :=
  ((rowsInCat (deliveredDf df) c).map (·.price)).sum

/-- rev_df, lines 124 to 125: per-category delivered revenue. -/
def revDf (df : List Row) : List (String × ℚ) :=
  (catKeys (deliveredDf df)).map (fun c => (c, revenueOfCat df c))

/-- total_orders_cat, lines 129 to 130: distinct order ids per category,
all statuses. -/
def totalOrdersCat (df : List Row) : List (String × ℕ) :=
  (catKeys df).map (fun c => (c, nuniqueOrders (rowsInCat df c)))

/-- cancel_df, lines 133 to 134: distinct canceled or unavailable order
ids per category. -/
def cancelCat (df : List Row) : List (String × ℕ) :=
  (catKeys (cancelDf df)).map (fun c => (c, nuniqueOrders (rowsInCat (cancelDf df) c)))

/-- One output row of the category aggregate q1_df. -/
structure Q1Row where
  category : String
  total_revenue : ℚ
  total_orders : Option ℕ
  canceled_orders : ℕ
  cancellation_rate : Option ℚ
deriving DecidableEq, Repr

/-- Line 142: cancellation_rate = canceled_orders / total_orders * 100.
A null or zero denominator would give NaN or infinity in pandas, modelled
as none (the theorems show neither case arises). -/
def mkRate (c : ℕ) (t : Option ℕ) : Option ℚ :=
  match t with
  | none => none
  | some t => if t = 0 then none else some ((c : ℚ) / (t : ℚ) * 100)

/-- The two left joins of lines 137 to 139 plus the rate of line 142,
applied to one rev_df row: look up the category in total_orders_cat and
cancel_df, filling a missing cancellation count with 0. -/
def mergeRow (df : List Row) (p : String × ℚ) : Q1Row :=
  let t := (totalOrdersCat df).lookup p.1
  let c := ((cancelCat df).lookup p.1).getD 0
  { category := p.1, total_revenue := p.2, total_orders := t,
    canceled_orders := c, cancellation_rate := mkRate c t }

/-- q1_df, lines 137 to 142: rev_df is the join base. -/
def q1Df (df : List Row) : List Q1Row :=
  (revDf df).map (mergeRow df)

/-- Insert one row into a list kept in descending order of total_revenue. -/
def insertByRev (a : Q1Row) : List Q1Row → List Q1Row
  | [] => [a]
  | b :: l => if b.total_revenue ≤ a.total_revenue then a :: b :: l
              else b :: insertByRev a l

/-- sort_values by total_revenue descending, line 145. -/
def sortByRevDesc : List Q1Row → List Q1Row
  | [] => []
  | a :: l => insertByRev a (sortByRevDesc l)

/-- top_10_df, line 145: sort by revenue descending, keep the first 10. -/
def top10Df (df : List Row) : List Q1Row :=
  (sortByRevDesc (q1Df df)).take 10

/-- The q2 selection, lines 187 to 191: delivered rows with both delivery
dates present. -/
def q2Filter (df : List Row) : List Row :=
  df.filter (fun r => r.order_status == "delivered"
    && r.order_delivered_customer_date.isSome
    && r.order_estimated_delivery_date.isSome)

/-- Bucket labels used by the dashboard. -/
def lateLabel : String := "Terlambat (Late)"

def ontimeLabel : String := "Tepat Waktu (On Time)"

/-- One row of q2_df after lines 194 to 199: the source row, its delay in
whole days, and its bucket. -/
structure Q2Row where
  row : Row
  delay_days : Int
  delivery_status : String
deriving DecidableEq, Repr

/-- Lines 194 to 199 applied to one row.  The date fields are present for
every row that passes q2Filter (the getD defaults are never reached there,
which the theorems make explicit). -/
def mkQ2Row (r : Row) : Q2Row :=
  let delay := timedeltaDays ((r.order_delivered_customer_date.getD 0)
    - (r.order_estimated_delivery_date.getD 0))
  { row := r, delay_days := delay,
    delivery_status := if 0 < delay then lateLabel else ontimeLabel }

/-- q2_df, lines 187 to 199. -/
def q2Df (df : List Row) : List Q2Row :=
  (q2Filter df).map mkQ2Row

/-- The non-null review scores of one delivery-status bucket. -/
def bucketScores (df : List Row) (s : String) : List ℚ :=
  ((q2Df df).filter (fun q => q.delivery_status == s)).filterMap (·.row.review_score)

/-- score_summary, line 202: mean review score per delivery-status bucket
(mean skips null scores; an all-null bucket has a NaN mean, modelled as
none). -/
def scoreSummary (df : List Row) : List (String × Option ℚ) :=
  ((q2Df df).map (·.delivery_status)).dedup.map (fun s => (s, listMean (bucketScores df s)))

/-- late_score, line 240: score_summary.get with default 0 when the Late
bucket is absent; a present NaN mean passes through. -/
def lateScore (df : List Row) : Option ℚ :=
  match (scoreSummary df).lookup lateLabel with
  | none => some 0
  | some v => v

/-- ontime_score, line 241. -/
def ontimeScore (df : List Row) : Option ℚ :=
  match (scoreSummary df).lookup ontimeLabel with
  | none => some 0
  | some v => v

/-- The signed difference shown in the narrative text, line 247:
ontime_score - late_score. -/
def narrativeDelta (df : List Row) : Option ℚ :=
  match ontimeScore df, lateScore df with
  | some o, some l => some (o - l)
  | _, _ => none

/-- The delta of the metric card, line 244: late_score - ontime_score. -/
def metricDelta (df : List Row) : Option ℚ :=
  match ontimeScore df, lateScore df with
  | some o, some l => some (l - o)
  | _, _ => none

/-- A raw CSV row before timestamp coercion: the three date columns are
still text. -/
structure RawRow where
  order_id : String
  order_status : String
  price : ℚ
  product_category_name_english : Option String
  review_score : Option ℚ
  order_purchase_timestamp : String
  order_delivered_customer_date : String
  order_estimated_delivery_date : String
deriving DecidableEq, Repr

/-- Line 36: to_datetime with coerce applied to one row.  The parameter
parse stands for the external datetime parser; a malformed value is the
none result, which lands in the column as a null instead of aborting. -/
def parseRow (parse : String → Option Int) (r : RawRow) : Row :=
  { order_id := r.order_id, order_status := r.order_status, price := r.price,
    product_category_name_english := r.product_category_name_english,
    review_score := r.review_score,
    order_purchase_timestamp := parse r.order_purchase_timestamp,
    order_delivered_customer_date := parse r.order_delivered_customer_date,
    order_estimated_delivery_date := parse r.order_estimated_delivery_date }

/-- load_data, lines 20 to 41: a missing file (none) yields no table after
the user-visible error; otherwise every row is kept with the three date
columns leniently coerced. -/
def loadData (parse : String → Option Int) (file : Option (List RawRow)) :
    Option (List Row) :=
  match file with
  | none => none
  | some raws => some (raws.map (parseRow parse))

/-- The two user-visible halting errors of the script. -/
inductive DashError where
  | DataNotFound
  | InvalidRange
deriving DecidableEq, Repr

/-- The aggregates the render path computes once the guards pass. -/
structure DashOutputs where
  main : List Row
  total_revenue : ℚ
  total_order : ℕ
  avg_score : Option ℚ
  top_10 : List Q1Row
  late : Option ℚ
  ontime : Option ℚ
deriving Repr

/-- The render path of the script: line 47 halts on a missing table,
line 82 halts when the start date exceeds the end date, and only then are
the filter and the aggregates computed (lines 90 to 247). -/
def renderDashboard (data : Option (List Row)) (startDate endDate : Int) :
    Except DashError DashOutputs :=
  match data with
  | none => .error .DataNotFound
  | some all =>
    if startDate > endDate then .error .InvalidRange
    else
      let m := mainDf all startDate endDate
      .ok { main := m, total_revenue := totalRevenue m,
            total_order := nuniqueOrders m, avg_score := avgScore m,
            top_10 := top10Df m, late := lateScore m, ontime := ontimeScore m }

def r1 : Row :=
  { order_id := "o1", order_status := "delivered", price := 10,
    product_category_name_english := some "Toys", review_score := some 2,
    order_purchase_timestamp := some (100 * 86400 + 3600),
    order_delivered_customer_date := some (12 * 86400 + 100),
    order_estimated_delivery_date := some (10 * 86400) }

def r2 : Row :=
  { order_id := "o2", order_status := "delivered", price := 20,
    product_category_name_english := some "Toys", review_score := some 5,
    order_purchase_timestamp := some (150 * 86400),
    order_delivered_customer_date := some (9 * 86400),
    order_estimated_delivery_date := some (10 * 86400) }

def r3 : Row :=
  { order_id := "o3", order_status := "delivered", price := 30,
    product_category_name_english := some "Toys", review_score := none,
    order_purchase_timestamp := some (200 * 86400),
    order_delivered_customer_date := none,
    order_estimated_delivery_date := some (10 * 86400) }

def r4 : Row :=
  { order_id := "o4", order_status := "canceled", price := 15,
    product_category_name_english := some "Toys", review_score := none,
    order_purchase_timestamp := some (120 * 86400),
    order_delivered_customer_date := none,
    order_estimated_delivery_date := none }

def r5 : Row :=
  { order_id := "o5", order_status := "delivered", price := 7,
    product_category_name_english := some "pets", review_score := some 3,
    order_purchase_timestamp := some (130 * 86400 + 50),
    order_delivered_customer_date := some (5 * 86400),
    order_estimated_delivery_date := some (5 * 86400) }

def sampleDf : List Row := [r1, r2, r3, r4, r5]

/-- Descending-revenue order between two q1 rows. -/
def revGE (a b : Q1Row) : Prop := b.total_revenue ≤ a.total_revenue

/-- A concrete stand-in for the external datetime parser: it recognises
one well-formed date text and rejects everything else. -/
def sampleParse : String → Option Int :=
  fun s => if s = "2022-01-01" then some 1640995200 else none

/-- A raw CSV row whose three date texts are well formed. -/
def rawGood : RawRow :=
  { order_id := "o1", order_status := "delivered", price := 10,
    product_category_name_english := some "Toys", review_score := some 5,
    order_purchase_timestamp := "2022-01-01",
    order_delivered_customer_date := "2022-01-01",
    order_estimated_delivery_date := "2022-01-01" }

/-- A raw CSV row whose purchase timestamp text is malformed. -/
def rawBad : RawRow :=
  { order_id := "o2", order_status := "delivered", price := 20,
    product_category_name_english := some "Toys", review_score := some 4,
    order_purchase_timestamp := "not a date",
    order_delivered_customer_date := "2022-01-01",
    order_estimated_delivery_date := "2022-01-01" }

/-! Helper lemmas about the embedded dataframe operations. -/

theorem mem_deliveredDf {df : List Row} {r : Row} :
    r ∈ deliveredDf df ↔ r ∈ df ∧ r.order_status = "delivered" := by
  simp [deliveredDf, List.mem_filter]

theorem mem_cancelDf {df : List Row} {r : Row} :
    r ∈ cancelDf df ↔ r ∈ df ∧
      (r.order_status = "canceled" ∨ r.order_status = "unavailable") := by
  simp [cancelDf, List.mem_filter]

theorem mem_catKeys {df : List Row} {c : String} :
    c ∈ catKeys df ↔ ∃ r ∈ df, r.product_category_name_english = some c := by
  simp [catKeys, List.mem_dedup, List.mem_filterMap]

theorem mem_rowsInCat {df : List Row} {c : String} {r : Row} :
    r ∈ rowsInCat df c ↔ r ∈ df ∧ r.product_category_name_english = some c := by
  simp [rowsInCat, List.mem_filter]

theorem lookup_map_self {β : Type} (f : String → β) {l : List String} {c : String}
    (h : c ∈ l) : (l.map (fun x => (x, f x))).lookup c = some (f c) := by
  induction l with
  | nil => cases h
  | cons a t ih =>
    by_cases hca : c = a
    · subst hca
      simp [List.lookup]
    · have hb : (c == a) = false := beq_false_of_ne hca
      have hct : c ∈ t := by
        rcases List.mem_cons.mp h with h1 | h1
        · exact absurd h1 hca
        · exact h1
      simpa [List.lookup, hb] using ih hct

theorem lookup_map_none {β : Type} (f : String → β) {l : List String} {c : String}
    (h : c ∉ l) : (l.map (fun x => (x, f x))).lookup c = none := by
  induction l with
  | nil => simp [List.lookup]
  | cons a t ih =>
    have hca : c ≠ a := fun he => h (he ▸ List.mem_cons_self a t)
    have hb : (c == a) = false := beq_false_of_ne hca
    have hct : c ∉ t := fun hmem => h (List.mem_cons_of_mem a hmem)
    simpa [List.lookup, hb] using ih hct

theorem nuniqueOrders_mono {l₁ l₂ : List Row} (h : ∀ r ∈ l₁, r ∈ l₂) :
    nuniqueOrders l₁ ≤ nuniqueOrders l₂ := by
  apply Finset.card_le_card
  intro x hx
  simp only [List.mem_toFinset, List.mem_map] at hx ⊢
  obtain ⟨r, hr, hrx⟩ := hx
  exact ⟨r, h r hr, hrx⟩

theorem nuniqueOrders_pos {l : List Row} {r : Row} (h : r ∈ l) :
    1 ≤ nuniqueOrders l := by
  apply Finset.card_pos.mpr
  exact ⟨r.order_id, by simp [List.mem_toFinset, List.mem_map]; exact ⟨r, h, rfl⟩⟩

theorem mem_q1Df {df : List Row} {q : Q1Row} :
    q ∈ q1Df df ↔
      ∃ c ∈ catKeys (deliveredDf df), q = mergeRow df (c, revenueOfCat df c) := by
  constructor
  · intro hq
    obtain ⟨p, hp, hpq⟩ := List.mem_map.mp hq
    obtain ⟨c, hc, hcp⟩ := List.mem_map.mp hp
    exact ⟨c, hc, by rw [← hpq, ← hcp]⟩
  · rintro ⟨c, hc, rfl⟩
    exact List.mem_map.mpr ⟨(c, revenueOfCat df c),
      List.mem_map.mpr ⟨c, hc, rfl⟩, rfl⟩

theorem catKeys_delivered_sub {df : List Row} {c : String}
    (h : c ∈ catKeys (deliveredDf df)) : c ∈ catKeys df := by
  obtain ⟨r, hr, hrc⟩ := mem_catKeys.mp h
  exact mem_catKeys.mpr ⟨r, (mem_deliveredDf.mp hr).1, hrc⟩

theorem totalOrders_lookup {df : List Row} {c : String} (h : c ∈ catKeys df) :
    (totalOrdersCat df).lookup c = some (nuniqueOrders (rowsInCat df c)) :=
  lookup_map_self (fun c => nuniqueOrders (rowsInCat df c)) h

theorem canceled_le_total (df : List Row) (c : String) :
    (((cancelCat df).lookup c).getD 0) ≤ nuniqueOrders (rowsInCat df c) := by
  by_cases h : c ∈ catKeys (cancelDf df)
  · rw [show (cancelCat df).lookup c
        = some (nuniqueOrders (rowsInCat (cancelDf df) c)) from
      lookup_map_self (fun c => nuniqueOrders (rowsInCat (cancelDf df) c)) h]
    exact nuniqueOrders_mono (fun r hr => by
      obtain ⟨hr1, hr2⟩ := mem_rowsInCat.mp hr
      exact mem_rowsInCat.mpr ⟨(mem_cancelDf.mp hr1).1, hr2⟩)
  · rw [show (cancelCat df).lookup c = none from
      lookup_map_none (fun c => nuniqueOrders (rowsInCat (cancelDf df) c)) h]
    exact Nat.zero_le _

/-! Sorting lemmas: insertByRev and sortByRevDesc keep the multiset of
rows, preserve length, and produce a list pairwise descending in
total_revenue. -/

theorem length_insertByRev (a : Q1Row) (l : List Q1Row) :
    (insertByRev a l).length = l.length + 1 := by
  induction l with
  | nil => rfl
  | cons b t ih =>
    by_cases h : b.total_revenue ≤ a.total_revenue
    · simp [insertByRev, h]
    · simp [insertByRev, h, ih]

theorem length_sortByRevDesc (l : List Q1Row) :
    (sortByRevDesc l).length = l.length := by
  induction l with
  | nil => rfl
  | cons a t ih => simp [sortByRevDesc, length_insertByRev, ih]

theorem mem_insertByRev {a x : Q1Row} {l : List Q1Row} :
    x ∈ insertByRev a l ↔ x = a ∨ x ∈ l := by
  induction l with
  | nil => simp [insertByRev]
  | cons b t ih =>
    by_cases h : b.total_revenue ≤ a.total_revenue
    · simp [insertByRev, h]
    · simp [insertByRev, h, ih]
      tauto

theorem mem_sortByRevDesc {x : Q1Row} {l : List Q1Row} :
    x ∈ sortByRevDesc l ↔ x ∈ l := by
  induction l with
  | nil => simp [sortByRevDesc]
  | cons a t ih =>
    simp [sortByRevDesc, mem_insertByRev, ih]

theorem pairwise_insertByRev {a : Q1Row} {l : List Q1Row}
    (h : l.Pairwise revGE) : (insertByRev a l).Pairwise revGE := by
  induction l with
  | nil => simp [insertByRev, revGE]
  | cons b t ih =>
    rcases List.pairwise_cons.mp h with ⟨hb, ht⟩
    by_cases hba : b.total_revenue ≤ a.total_revenue
    · rw [insertByRev, if_pos hba]
      refine List.pairwise_cons.mpr ⟨?_, h⟩
      intro x hx
      rcases List.mem_cons.mp hx with rfl | hxt
      · exact hba
      · exact le_trans (hb x hxt) hba
    · rw [insertByRev, if_neg hba]
      refine List.pairwise_cons.mpr ⟨?_, ih ht⟩
      intro x hx
      rcases mem_insertByRev.mp hx with rfl | hxt
      · exact le_of_not_le hba
      · exact hb x hxt

theorem pairwise_sortByRevDesc (l : List Q1Row) :
    (sortByRevDesc l).Pairwise revGE := by
  induction l with
  | nil => simp [sortByRevDesc]
  | cons a t ih => exact pairwise_insertByRev ih

/-! Lemmas about the delay pipeline. -/

theorem mem_q2Filter {df : List Row} {r : Row} :
    r ∈ q2Filter df ↔ r ∈ df ∧ r.order_status = "delivered"
      ∧ r.order_delivered_customer_date.isSome
      ∧ r.order_estimated_delivery_date.isSome := by
  simp [q2Filter, List.mem_filter, and_assoc]

theorem mem_q2Df {df : List Row} {q : Q2Row} :
    q ∈ q2Df df ↔ ∃ r ∈ q2Filter df, q = mkQ2Row r := by
  simp [q2Df, eq_comm]

theorem scoreSummary_lookup {df : List Row} {s : String}
    (h : s ∈ ((q2Df df).map (·.delivery_status)).dedup) :
    (scoreSummary df).lookup s = some (listMean (bucketScores df s)) :=
  lookup_map_self (fun s => listMean (bucketScores df s)) h

theorem bucket_label_mem {df : List Row} {s : String}
    (h : bucketScores df s ≠ []) :
    s ∈ ((q2Df df).map (·.delivery_status)).dedup := by
  obtain ⟨x, hx⟩ := List.exists_mem_of_ne_nil _ h
  obtain ⟨q, hq, -⟩ := List.mem_filterMap.mp hx
  obtain ⟨hq1, hq2⟩ := List.mem_filter.mp hq
  have hs : q.delivery_status = s := by simpa using hq2
  exact List.mem_dedup.mpr (List.mem_map.mpr ⟨q, hq1, hs⟩)

/-- The fields of a q1 output row, derived from its membership: the
total_orders join always hits (the category occurs in the all-status
grouping), the count is at least 1, the cancellation count is the
looked-up value with 0 for a missing category, and the rate is formed
from these two numbers. -/
theorem q1_row_fields {df : List Row} {q : Q1Row} (hq : q ∈ q1Df df) :
    q.total_orders = some (nuniqueOrders (rowsInCat df q.category))
    ∧ 1 ≤ nuniqueOrders (rowsInCat df q.category)
    ∧ q.canceled_orders = ((cancelCat df).lookup q.category).getD 0
    ∧ q.cancellation_rate = mkRate q.canceled_orders q.total_orders := by
  obtain ⟨c, hc, rfl⟩ := mem_q1Df.mp hq
  obtain ⟨r, hr, hrc⟩ := mem_catKeys.mp hc
  have hcat : (mergeRow df (c, revenueOfCat df c)).category = c := rfl
  have hmem : r ∈ rowsInCat df c :=
    mem_rowsInCat.mpr ⟨(mem_deliveredDf.mp hr).1, hrc⟩
  refine ⟨?_, nuniqueOrders_pos hmem, rfl, rfl⟩
  rw [hcat]
  exact totalOrders_lookup (catKeys_delivered_sub hc)

/-- C1: the category aggregate outputs exactly the categories that have at
least one delivered row in the filtered set, so a category whose orders
are all canceled or unavailable does not appear; and an output category
whose rows are never canceled or unavailable has canceled_orders equal to
0, not an absent value. -/
theorem c1_q1_output_categories (df : List Row) (c : String) :
    (c ∈ (q1Df df).map Q1Row.category ↔
      ∃ r ∈ df, r.order_status = "delivered" ∧
        r.product_category_name_english = some c)
    ∧ ∀ q ∈ q1Df df,
        (∀ r ∈ df, r.product_category_name_english = some q.category →
          r.order_status ≠ "canceled" ∧ r.order_status ≠ "unavailable") →
        q.canceled_orders = 0 := by
  constructor
  · have hmap : (q1Df df).map Q1Row.category = catKeys (deliveredDf df) := by
      simp only [q1Df, revDf, List.map_map]
      have hid : (Q1Row.category ∘ mergeRow df ∘ fun c => (c, revenueOfCat df c)) = id :=
        funext (fun c => rfl)
      rw [hid, List.map_id]
    rw [hmap, mem_catKeys]
    constructor
    · rintro ⟨r, hr, hrc⟩
      obtain ⟨hr1, hr2⟩ := mem_deliveredDf.mp hr
      exact ⟨r, hr1, hr2, hrc⟩
    · rintro ⟨r, hr1, hr2, hrc⟩
      exact ⟨r, mem_deliveredDf.mpr ⟨hr1, hr2⟩, hrc⟩
  · intro q hq hnone
    have hfields := q1_row_fields hq
    have hnot : q.category ∉ catKeys (cancelDf df) := by
      intro hmem
      obtain ⟨r, hr, hrc⟩ := mem_catKeys.mp hmem
      obtain ⟨hr1, hr2⟩ := mem_cancelDf.mp hr
      obtain ⟨hne1, hne2⟩ := hnone r hr1 hrc
      rcases hr2 with h1 | h1
      · exact hne1 h1
      · exact hne2 h1
    have hnone2 : (cancelCat df).lookup q.category = none :=
      lookup_map_none (fun c => nuniqueOrders (rowsInCat (cancelDf df) c)) hnot
    rw [hfields.2.2.1, hnone2]
    rfl

/-- C2: every row of the category aggregate has a present total_orders
that counts the distinct order ids of all statuses of its category in the
filtered set, its cancellation_rate equals canceled_orders divided by
total_orders times 100, canceled_orders never exceeds total_orders, and
the rate lies between 0 and 100. -/
theorem c2_cancellation_rate (df : List Row) (q : Q1Row) (hq : q ∈ q1Df df) :
    ∃ t : ℕ, q.total_orders = some t
      ∧ t = nuniqueOrders (rowsInCat df q.category)
      ∧ q.canceled_orders ≤ t
      ∧ q.cancellation_rate = some ((q.canceled_orders : ℚ) / (t : ℚ) * 100)
      ∧ ∀ x : ℚ, q.cancellation_rate = some x → 0 ≤ x ∧ x ≤ 100 := by
  obtain ⟨hto, hpos, hco, hrate⟩ := q1_row_fields hq
  set t := nuniqueOrders (rowsInCat df q.category) with ht
  have hle : q.canceled_orders ≤ t := by
    rw [hco]
    exact canceled_le_total df q.category
  have htne : t ≠ 0 := Nat.pos_iff_ne_zero.mp hpos
  have hr : q.cancellation_rate = some ((q.canceled_orders : ℚ) / (t : ℚ) * 100) := by
    rw [hrate, hto, mkRate, if_neg htne]
  refine ⟨t, hto, rfl, hle, hr, ?_⟩
  intro x hx
  rw [hr] at hx
  obtain rfl : ((q.canceled_orders : ℚ) / (t : ℚ) * 100) = x := by
    exact Option.some.inj hx
  have htpos : (0 : ℚ) < (t : ℚ) := by
    exact_mod_cast Nat.pos_of_ne_zero htne
  constructor
  · positivity
  · have hdiv : (q.canceled_orders : ℚ) / (t : ℚ) ≤ 1 := by
      rw [div_le_one htpos]
      exact_mod_cast hle
    calc (q.canceled_orders : ℚ) / (t : ℚ) * 100 ≤ 1 * 100 := by
          exact mul_le_mul_of_nonneg_right hdiv (by norm_num)
      _ = 100 := by norm_num

/-- C10: the total_orders value joined onto every output row of the
category aggregate is present and at least 1, hence the rate division of
line 142 has a defined, nonzero denominator and the rate itself is a
present value. -/
theorem c10_denominator_safe (df : List Row) (q : Q1Row) (hq : q ∈ q1Df df) :
    ∃ t : ℕ, q.total_orders = some t ∧ 1 ≤ t ∧ q.cancellation_rate.isSome := by
  obtain ⟨hto, hpos, hco, hrate⟩ := q1_row_fields hq
  refine ⟨nuniqueOrders (rowsInCat df q.category), hto, hpos, ?_⟩
  rw [hrate, hto, mkRate, if_neg (Nat.pos_iff_ne_zero.mp hpos)]
  rfl

/-- C3: the top-category list is pairwise descending in revenue, its
length is the minimum of 10 and the number of categories with delivered
revenue (which is the length of the category aggregate), and when that
number is at most 10 every aggregated category appears in it. -/
theorem c3_top10_sorted_length (df : List Row) :
    (top10Df df).Pairwise revGE
    ∧ (top10Df df).length = min 10 (q1Df df).length
    ∧ (q1Df df).length = (catKeys (deliveredDf df)).length
    ∧ ((q1Df df).length ≤ 10 → ∀ q ∈ q1Df df, q ∈ top10Df df) := by
  refine ⟨?_, ?_, ?_, ?_⟩
  · exact List.Pairwise.sublist (List.take_sublist 10 _) (pairwise_sortByRevDesc _)
  · rw [top10Df, List.length_take, length_sortByRevDesc]
  · simp [q1Df, revDf]
  · intro hle q hq
    have hall : (sortByRevDesc (q1Df df)).take 10 = sortByRevDesc (q1Df df) :=
      List.take_of_length_le (by rw [length_sortByRevDesc]; exact hle)
    rw [top10Df, hall, mem_sortByRevDesc]
    exact hq

/-- C4: the delay aggregate contains exactly the delivered rows with both
delivery dates present; each of its rows carries delay_days equal to the
floor whole-day difference of actual minus estimated delivery timestamp
(so possibly negative), is labelled Late exactly when delay_days is
positive, and a delay of at most zero days, in particular exactly zero,
is labelled On Time. -/
theorem c4_delay_buckets (df : List Row) :
    (∀ q ∈ q2Df df, q.row ∈ df ∧ q.row.order_status = "delivered" ∧
      ∃ d e : Int, q.row.order_delivered_customer_date = some d ∧
        q.row.order_estimated_delivery_date = some e ∧
        q.delay_days = timedeltaDays (d - e) ∧
        (q.delivery_status = lateLabel ↔ 0 < q.delay_days) ∧
        (q.delay_days ≤ 0 → q.delivery_status = ontimeLabel))
    ∧ (∀ r ∈ df, r.order_status = "delivered" →
        r.order_delivered_customer_date.isSome →
        r.order_estimated_delivery_date.isSome →
        mkQ2Row r ∈ q2Df df) := by
  constructor
  · intro q hq
    obtain ⟨r, hr, rfl⟩ := mem_q2Df.mp hq
    obtain ⟨hr1, hr2, hr3, hr4⟩ := mem_q2Filter.mp hr
    obtain ⟨d, hd⟩ := Option.isSome_iff_exists.mp hr3
    obtain ⟨e, he⟩ := Option.isSome_iff_exists.mp hr4
    refine ⟨hr1, hr2, d, e, hd, he, ?_, ?_, ?_⟩
    · simp [mkQ2Row, hd, he]
    · have hdelay : (mkQ2Row r).delay_days = timedeltaDays (d - e) := by
        simp [mkQ2Row, hd, he]
      by_cases hpos : 0 < (mkQ2Row r).delay_days
      · constructor
        · intro _; exact hpos
        · intro _
          simp only [mkQ2Row, hd, he, Option.getD_some] at hpos ⊢
          rw [if_pos hpos]
      · constructor
        · intro hlate
          exfalso
          simp only [mkQ2Row, hd, he, Option.getD_some] at hpos hlate
          rw [if_neg hpos] at hlate
          exact absurd hlate (by decide)
        · intro h; exact absurd h hpos
    · intro hle
      have hnpos : ¬ 0 < (mkQ2Row r).delay_days := not_lt.mpr hle
      simp only [mkQ2Row, hd, he, Option.getD_some] at hnpos ⊢
      rw [if_neg hnpos]
  · intro r hr h1 h2 h3
    exact List.mem_map.mpr ⟨r, List.mem_filter.mpr ⟨hr, by simp [h1, h2, h3]⟩, rfl⟩

/-- C5: when both delay buckets contain a row with a non-null review
score, the reported late and on-time values are exactly the per-bucket
mean review scores, the narrative difference of line 247 equals the
on-time mean minus the late mean, and the metric delta of line 244 is its
negation. -/
theorem c5_bucket_means_delta (df : List Row)
    (hl : bucketScores df lateLabel ≠ [])
    (ho : bucketScores df ontimeLabel ≠ []) :
    lateScore df = some ((bucketScores df lateLabel).sum
        / ((bucketScores df lateLabel).length : ℚ))
    ∧ ontimeScore df = some ((bucketScores df ontimeLabel).sum
        / ((bucketScores df ontimeLabel).length : ℚ))
    ∧ narrativeDelta df = some ((bucketScores df ontimeLabel).sum
        / ((bucketScores df ontimeLabel).length : ℚ)
        - (bucketScores df lateLabel).sum
        / ((bucketScores df lateLabel).length : ℚ))
    ∧ metricDelta df = some ((bucketScores df lateLabel).sum
        / ((bucketScores df lateLabel).length : ℚ)
        - (bucketScores df ontimeLabel).sum
        / ((bucketScores df ontimeLabel).length : ℚ)) := by
  have hlkl : (scoreSummary df).lookup lateLabel
      = some (listMean (bucketScores df lateLabel)) :=
    scoreSummary_lookup (bucket_label_mem hl)
  have hlko : (scoreSummary df).lookup ontimeLabel
      = some (listMean (bucketScores df ontimeLabel)) :=
    scoreSummary_lookup (bucket_label_mem ho)
  have hml : listMean (bucketScores df lateLabel)
      = some ((bucketScores df lateLabel).sum
        / ((bucketScores df lateLabel).length : ℚ)) := by
    rw [listMean, if_neg hl]
  have hmo : listMean (bucketScores df ontimeLabel)
      = some ((bucketScores df ontimeLabel).sum
        / ((bucketScores df ontimeLabel).length : ℚ)) := by
    rw [listMean, if_neg ho]
  have h1 : lateScore df = some ((bucketScores df lateLabel).sum
      / ((bucketScores df lateLabel).length : ℚ)) := by
    rw [lateScore, hlkl, hml]
  have h2 : ontimeScore df = some ((bucketScores df ontimeLabel).sum
      / ((bucketScores df ontimeLabel).length : ℚ)) := by
    rw [ontimeScore, hlko, hmo]
  refine ⟨h1, h2, ?_, ?_⟩
  · rw [narrativeDelta, h1, h2]
  · rw [metricDelta, h1, h2]

/-- C6: for a valid range, the filtered view holds exactly the base rows
whose purchase timestamp is present and whose calendar date lies between
the start and end dates inclusive, and its row count never exceeds the
base row count. -/
theorem c6_date_filter (all : List Row) (startDate endDate : Int)
    (_hvalid : startDate ≤ endDate) :
    (∀ r : Row, r ∈ mainDf all startDate endDate ↔
      r ∈ all ∧ ∃ t : Int, r.order_purchase_timestamp = some t ∧
        startDate ≤ toDate t ∧ toDate t ≤ endDate)
    ∧ (mainDf all startDate endDate).length ≤ all.length := by
  constructor
  · intro r
    rw [mainDf, List.mem_filter]
    constructor
    · rintro ⟨hr, hpred⟩
      refine ⟨hr, ?_⟩
      cases ht : r.order_purchase_timestamp with
      | none => rw [ht] at hpred; exact absurd hpred (by simp)
      | some t =>
        rw [ht] at hpred
        simp only [Bool.and_eq_true, decide_eq_true_eq] at hpred
        exact ⟨t, rfl, hpred.1, hpred.2⟩
    · rintro ⟨hr, t, ht, h1, h2⟩
      exact ⟨hr, by rw [ht]; simp [h1, h2]⟩
  · exact List.length_filter_le _ all

/-- C7: when the filtered view has no rows, every aggregate is still
defined: total revenue is the rational 0, the distinct-order count is 0,
the average review score is the explicit undefined sentinel none rather
than a coerced 0, and the top-category list is empty. -/
theorem c7_empty_aggregates (all : List Row) (startDate endDate : Int)
    (hempty : mainDf all startDate endDate = []) :
    totalRevenue (mainDf all startDate endDate) = 0
    ∧ nuniqueOrders (mainDf all startDate endDate) = 0
    ∧ avgScore (mainDf all startDate endDate) = none
    ∧ top10Df (mainDf all startDate endDate) = [] := by
  rw [hempty]
  refine ⟨rfl, rfl, rfl, rfl⟩

/-- C8: a start date after the end date makes the render path stop with
the InvalidRange error, producing no aggregates, while any valid range on
the same loaded table renders successfully, so the failure is recoverable
by re-input and does not leave the program unable to proceed. -/
theorem c8_invalid_range (all : List Row) (s e s2 e2 : Int)
    (hbad : e < s) (hgood : s2 ≤ e2) :
    renderDashboard (some all) s e = Except.error DashError.InvalidRange
    ∧ ∃ out : DashOutputs, renderDashboard (some all) s2 e2 = Except.ok out := by
  constructor
  · rw [renderDashboard]
    rw [if_pos hbad]
  · rw [renderDashboard, if_neg (not_lt.mpr hgood)]
    exact ⟨_, rfl⟩

/-- C9: a missing dataset file makes the loader return no table and the
dashboard halt with the DataNotFound error; when the file is present the
load always succeeds with one output row per input row, and each of the
three date columns holds exactly the lenient parse result of its text,
null when malformed, so a bad value never aborts the load. -/
theorem c9_loader (parse : String → Option Int) (s e : Int)
    (raws : List RawRow) :
    (loadData parse none = none
      ∧ renderDashboard (loadData parse none) s e
          = Except.error DashError.DataNotFound)
    ∧ ∃ rows : List Row, loadData parse (some raws) = some rows
        ∧ rows.length = raws.length
        ∧ ∀ r ∈ raws, parseRow parse r ∈ rows
          ∧ (parseRow parse r).order_purchase_timestamp
              = parse r.order_purchase_timestamp
          ∧ (parseRow parse r).order_delivered_customer_date
              = parse r.order_delivered_customer_date
          ∧ (parseRow parse r).order_estimated_delivery_date
              = parse r.order_estimated_delivery_date := by
  refine ⟨⟨rfl, rfl⟩, raws.map (parseRow parse), rfl, List.length_map raws _, ?_⟩
  intro r hr
  exact ⟨List.mem_map.mpr ⟨r, hr, rfl⟩, rfl, rfl, rfl⟩

/-! Witnesses: each claim theorem with a hypothesis applied at the
concrete sample dataset. -/

/-- Witness for C1 on the sample data: Toys appears among the output
categories, and the pets category, which has no canceled or unavailable
rows, gets canceled_orders 0. -/
theorem c1_q1_output_categories_witness :
    "Toys" ∈ (q1Df sampleDf).map Q1Row.category
    ∧ (mergeRow sampleDf ("pets", revenueOfCat sampleDf "pets")).canceled_orders = 0 := by
  refine ⟨(c1_q1_output_categories sampleDf "Toys").1.mpr ⟨r1, by decide, rfl, rfl⟩, ?_⟩
  exact (c1_q1_output_categories sampleDf "pets").2
    (mergeRow sampleDf ("pets", revenueOfCat sampleDf "pets"))
    (mem_q1Df.mpr ⟨"pets", by decide, rfl⟩)
    (by decide)

/-- Witness for C2 at the Toys row of the sample category aggregate. -/
theorem c2_cancellation_rate_witness :
    ∃ t : ℕ,
      (mergeRow sampleDf ("Toys", revenueOfCat sampleDf "Toys")).total_orders = some t
      ∧ t = nuniqueOrders (rowsInCat sampleDf
          (mergeRow sampleDf ("Toys", revenueOfCat sampleDf "Toys")).category)
      ∧ (mergeRow sampleDf ("Toys", revenueOfCat sampleDf "Toys")).canceled_orders ≤ t
      ∧ (mergeRow sampleDf ("Toys", revenueOfCat sampleDf "Toys")).cancellation_rate
          = some (((mergeRow sampleDf ("Toys", revenueOfCat sampleDf "Toys")).canceled_orders : ℚ)
            / (t : ℚ) * 100)
      ∧ ∀ x : ℚ,
          (mergeRow sampleDf ("Toys", revenueOfCat sampleDf "Toys")).cancellation_rate = some x →
          0 ≤ x ∧ x ≤ 100 :=
  c2_cancellation_rate sampleDf _ (mem_q1Df.mpr ⟨"Toys", by decide, rfl⟩)

/-- Witness for C3 on the sample data: both aggregated categories fit in
the top-10 list. -/
theorem c3_top10_sorted_length_witness :
    mergeRow sampleDf ("Toys", revenueOfCat sampleDf "Toys") ∈ top10Df sampleDf
    ∧ (top10Df sampleDf).length = min 10 (q1Df sampleDf).length :=
  ⟨(c3_top10_sorted_length sampleDf).2.2.2 (by decide) _
      (mem_q1Df.mpr ⟨"Toys", by decide, rfl⟩),
   (c3_top10_sorted_length sampleDf).2.1⟩

/-- Witness for C4 on the sample data: a two-day delay is Late, an early
delivery has negative delay, and a zero-day delay is On Time. -/
theorem c4_delay_buckets_witness :
    mkQ2Row r1 ∈ q2Df sampleDf
    ∧ (mkQ2Row r1).row ∈ sampleDf
    ∧ (mkQ2Row r1).delay_days = 2
    ∧ (mkQ2Row r1).delivery_status = lateLabel
    ∧ (mkQ2Row r2).delay_days = -1
    ∧ (mkQ2Row r5).delay_days = 0
    ∧ (mkQ2Row r5).delivery_status = ontimeLabel := by
  have h := c4_delay_buckets sampleDf
  have hmem : mkQ2Row r1 ∈ q2Df sampleDf :=
    h.2 r1 (by decide) rfl (by decide) (by decide)
  exact ⟨hmem, (h.1 (mkQ2Row r1) hmem).1, by decide, by decide, by decide,
    by decide, by decide⟩

/-- Witness for C5 on the sample data: both buckets have scored rows. -/
theorem c5_bucket_means_delta_witness :
    bucketScores sampleDf lateLabel ≠ []
    ∧ bucketScores sampleDf ontimeLabel ≠ []
    ∧ lateScore sampleDf = some ((bucketScores sampleDf lateLabel).sum
        / ((bucketScores sampleDf lateLabel).length : ℚ))
    ∧ narrativeDelta sampleDf = some ((bucketScores sampleDf ontimeLabel).sum
        / ((bucketScores sampleDf ontimeLabel).length : ℚ)
        - (bucketScores sampleDf lateLabel).sum
        / ((bucketScores sampleDf lateLabel).length : ℚ)) := by
  have h := c5_bucket_means_delta sampleDf (by decide) (by decide)
  exact ⟨by decide, by decide, h.1, h.2.2.1⟩

/-- Witness for C6 at the range of days 100 to 200 over the sample data. -/
theorem c6_date_filter_witness :
    (100 : Int) ≤ 200
    ∧ (∀ r : Row, r ∈ mainDf sampleDf 100 200 ↔
        r ∈ sampleDf ∧ ∃ t : Int, r.order_purchase_timestamp = some t ∧
          100 ≤ toDate t ∧ toDate t ≤ 200)
    ∧ (mainDf sampleDf 100 200).length ≤ sampleDf.length := by
  have h := c6_date_filter sampleDf 100 200 (by decide)
  exact ⟨by decide, h.1, h.2⟩

/-- Witness for C7 at a range of days matching no sample row. -/
theorem c7_empty_aggregates_witness :
    mainDf sampleDf 300 400 = []
    ∧ totalRevenue (mainDf sampleDf 300 400) = 0
    ∧ nuniqueOrders (mainDf sampleDf 300 400) = 0
    ∧ avgScore (mainDf sampleDf 300 400) = none
    ∧ top10Df (mainDf sampleDf 300 400) = [] := by
  have h := c7_empty_aggregates sampleDf 300 400 (by decide)
  exact ⟨by decide, h.1, h.2.1, h.2.2.1, h.2.2.2⟩

/-- Witness for C8: the inverted range of epoch days 19024 (2022-02-01)
and 18993 (2022-01-01) is refused, while days 100 to 200 render. -/
theorem c8_invalid_range_witness :
    (18993 : Int) < 19024
    ∧ (100 : Int) ≤ 200
    ∧ renderDashboard (some sampleDf) 19024 18993
        = Except.error DashError.InvalidRange
    ∧ ∃ out : DashOutputs,
        renderDashboard (some sampleDf) 100 200 = Except.ok out := by
  have h := c8_invalid_range sampleDf 19024 18993 100 200 (by decide) (by decide)
  exact ⟨by decide, by decide, h.1, h.2⟩

/-- Witness for C9: a missing file loads as none, and a two-row file with
one malformed purchase timestamp loads fully with that cell null. -/
theorem c9_loader_witness :
    loadData sampleParse none = none
    ∧ ∃ rows : List Row, loadData sampleParse (some [rawGood, rawBad]) = some rows
      ∧ rows.length = 2
      ∧ (parseRow sampleParse rawBad).order_purchase_timestamp = none := by
  have h := c9_loader sampleParse 100 200 [rawGood, rawBad]
  obtain ⟨⟨h1, -⟩, rows, h3, h4, h5⟩ := h
  refine ⟨h1, rows, h3, by rw [h4]; rfl, ?_⟩
  have h6 := h5 rawBad (by decide)
  rw [h6.2.1]
  decide

/-- Witness for C10 at the Toys row of the sample category aggregate. -/
theorem c10_denominator_safe_witness :
    ∃ t : ℕ,
      (mergeRow sampleDf ("Toys", revenueOfCat sampleDf "Toys")).total_orders = some t
      ∧ 1 ≤ t
      ∧ (mergeRow sampleDf ("Toys", revenueOfCat sampleDf "Toys")).cancellation_rate.isSome :=
  c10_denominator_safe sampleDf _ (mem_q1Df.mpr ⟨"Toys", by decide, rfl⟩)
